import Mathlib

/-!
Verification of the incipit reverse proxy's routing, forwarding and hot-reload
engine against its specification.  The Rust sources are embedded shallowly:
strings are Lean `String`s (or `List Char` where character-level reasoning is
needed), machine integers are `Nat`, fallible code returns `Except`, and the
effectful pieces (file watcher loop, HTTP middleware, WebSocket relay) are
modelled as explicit state-passing functions over the data their Rust
counterparts consume.
-/

namespace Incipit

/-! ## Data model (src/config.rs) -/

/-- Shallow model of std::net::IpAddr. -/
inductive IpAddr
| v4 (a b c d : Nat)
| v6 (segments : List Nat)
deriving DecidableEq

/-- Shallow model of std::net::SocketAddr: an IP address and a port. -/
structure SocketAddr where
  ip : IpAddr
  port : Nat
deriving DecidableEq

/-- Rust struct RepoConfig in src/config.rs. -/
structure RepoConfig where
  url : String
  branch : Option String
deriving DecidableEq

/-- Rust struct CommandConfig in src/config.rs. -/
structure CommandConfig where
  run : String
deriving DecidableEq

/-- Rust struct ServiceConfig in src/config.rs (the `T = String` instantiation
used at runtime, where `name` is a plain string). -/
structure ServiceConfig where
  name : String
  port : Nat
  host : String
  repo : Option RepoConfig
  command : Option CommandConfig
deriving DecidableEq

/-- Rust struct Config in src/config.rs.  Paths are modelled as strings. -/
structure Config where
  file_path : Option String
  services : List ServiceConfig
  incipit_host : Option String
  addr : Option IpAddr
  port : Option Nat
  db_path : Option String
deriving DecidableEq

/-- The constant DEFAULT in Config::addr: IpAddr::V4(0.0.0.0), the wildcard
address. -/
def wildcardV4 : IpAddr := IpAddr.v4 0 0 0 0

/-- Rust fn Config::addr in src/config.rs: the configured `addr` field,
defaulting to the wildcard 0.0.0.0 when unset.  Named `addrOrDefault` because
the Lean structure field `addr` occupies the Rust method's name. -/
def Config.addrOrDefault (c : Config) : IpAddr :=
  c.addr.getD wildcardV4

/-- Rust fn Config::socket in src/config.rs. -/
def Config.socket (c : Config) : SocketAddr :=
  ⟨c.addrOrDefault, c.port.getD 80⟩

/-! ## Host resolution (src/drawbridge/mapping.rs) -/

/-- Rust enum Target in src/drawbridge/mapping.rs: the result of resolving a
host header. -/
inductive Target
| Socket (addr : SocketAddr)
| Incipit
| Unknown
deriving DecidableEq

/-- Rust fn Target::port in src/drawbridge/mapping.rs: a Target::Socket on
0.0.0.0 with the specified port. -/
def Target.port (port : Nat) : Target :=
  Target.Socket ⟨wildcardV4, port⟩

/-- Rust impl HostMapping for Config, fn route, in src/drawbridge/mapping.rs:
dashboard host first, then the first service whose `host` field equals the
header exactly, else Unknown.  The matched service yields
`Target::Socket((self.addr(), service.port).into())`. -/
def Config.route (c : Config) (host : String) : Target :=
  if (c.incipit_host.map (fun ih => ih == host)).getD false then
    Target.Incipit
  else
    match c.services.find? (fun s => s.host == host) with
    | some s => Target.Socket ⟨c.addrOrDefault, s.port⟩
    | none => Target.Unknown

/-! ## HTTP forwarding pipeline (src/drawbridge/mod.rs and src/main.rs) -/

/-- An HTTP response as the middleware produces it: a status code and a body. -/
structure Response where
  status : Nat
  body : String
deriving DecidableEq

/-- Outcome of the network interaction attempted by fn forward in
src/drawbridge/mod.rs: the TCP connect can fail, the HTTP/1.1 handshake can
fail, or the upstream returns a response. -/
inductive NetOutcome
| connectError (e : String)
| handshakeError (e : String)
| upstream (resp : Response)
deriving DecidableEq

/-- Result of one run through route_traffic/forward: the value the middleware
closure receives, together with how many upstream TCP connections were
attempted. -/
structure ForwardTrace where
  result : Except String Response
  connectionsAttempted : Nat

/-- Rust fn forward in src/drawbridge/mod.rs: opens one TCP connection, does
one HTTP/1.1 handshake and exchange; connect and handshake failures propagate
as errors via the question mark operator. -/
def forward (net : NetOutcome) : ForwardTrace :=
  match net with
  | NetOutcome.connectError e => ⟨Except.error e, 1⟩
  | NetOutcome.handshakeError e => ⟨Except.error e, 1⟩
  | NetOutcome.upstream r => ⟨Except.ok r, 1⟩

/-- Rust fn route_traffic in src/drawbridge/mod.rs: resolve the host through
the mapping; on a hit, forward; on a miss, bail with the error
"Unknown host {host}" without touching the network. -/
def route_traffic (mapping : String → Option SocketAddr) (host : String)
    (net : NetOutcome) : ForwardTrace :=
  match mapping host with
  | some _addr => forward net
  | none => ⟨Except.error (("Unknown host ") ++ host), 0⟩

/-- What the middleware closure in src/main.rs hands back: the response sent to
the client, plus what it logged. -/
structure MiddlewareOutcome where
  response : Response
  logs : List String
deriving DecidableEq

/-- The middleware closure in src/main.rs (lines 28-35): an Ok response is
passed through; any error is logged via tracing::warn and replaced by a 500
response with the fixed body "500 - Incipit error". -/
def middleware (r : ForwardTrace) : MiddlewareOutcome :=
  match r.result with
  | Except.ok resp => ⟨resp, []⟩
  | Except.error e => ⟨⟨500, ("500 - Incipit error")⟩, [e]⟩

/-! ## Config watcher (src/config.rs fn watch, src/lib.rs fn run) -/

/-- One message received from the notify channel in fn watch: either a
filesystem event carrying the changed paths, or a watcher error. -/
inductive NotifyEvent
| ok (paths : List String)
| fsError (e : String)
deriving DecidableEq

/-- State after one iteration of the `for event in receiver` loop in fn watch:
the configuration now in the store, the tracing output the iteration produced,
and whether the thread keeps looping (false when the closure returned early
with an error via the question mark operator). -/
structure WatchIter where
  store : Config
  logs : List String
  alive : Bool
deriving DecidableEq

/-- One iteration of the watcher loop in src/config.rs (lines 189-198).
A channel error propagates out of the closure (`event?`), ending the thread.
An event not touching the config path is skipped.  A matching event re-runs
Config::new (modelled by the `reload` argument): on success the store is
overwritten wholesale and an info line is logged; on failure the question mark
operator ends the thread, leaving the store untouched and logging nothing. -/
def watchIteration (config_path : String) (store : Config)
    (ev : NotifyEvent) (reload : Except String Config) : WatchIter :=
  match ev with
  | NotifyEvent.fsError _e => ⟨store, [], false⟩
  | NotifyEvent.ok paths =>
    if config_path ∈ paths then
      match reload with
      | Except.ok c2 => ⟨c2, [("Reloaded config")], true⟩
      | Except.error _e => ⟨store, [], false⟩
    else ⟨store, [], true⟩

/-- Result of constructing the watcher in fn watch (src/config.rs lines
169-186): which file is being watched, if any, and the tracing output. -/
structure WatchResult where
  watching : Option String
  logs : List String
deriving DecidableEq

/-- Rust fn watch, construction phase: when the config has no file_path the
function warns "Not watching config" and returns Ok(None); otherwise it watches
the path's parent directory and returns Ok(Some(watcher)). -/
def watchSetup (store : Config) : WatchResult :=
  match store.file_path with
  | none => ⟨none, [("Not watching config")]⟩
  | some path => ⟨some path, [("Watching for changes")]⟩

/-- How fn run in src/lib.rs proceeds after calling watch: either it panicked,
or it is serving with the given optional watched path. -/
inductive RunOutcome
| panicked (msg : String)
| serving (watching : Option String)
deriving DecidableEq

/-- The panic message Rust produces for `Option::unwrap` on None. -/
def unwrapNoneMsg : String :=
  "called `Option::unwrap()` on a `None` value"

/-- src/lib.rs line 19: `let _watcher = config::watch(config)?.unwrap();`.
When watch returns Ok(None) — the degraded no-watching mode — run unwraps the
None and panics instead of serving. -/
def runWatcherPhase (store : Config) : RunOutcome :=
  match (watchSetup store).watching with
  | none => RunOutcome.panicked unwrapNoneMsg
  | some p => RunOutcome.serving (some p)

/-! ## Config store trace model (src/drawbridge/mapping.rs impl for
Arc<RwLock<Config>>, src/config.rs fn watch)

The RwLock read guard is held for the whole of Config::route, and the watcher
replaces the value wholesale while holding the write lock, so in any
interleaving each resolve call computes Config::route of exactly one complete
Config value.  The trace model makes that explicit: a trace is a list of
wholesale replacements and resolve calls, and each resolve observes the store
as of its position in the trace. -/

/-- An operation on the shared Arc<RwLock<Config>> store: a wholesale
replacement by the watcher thread, or a resolve by a request handler. -/
inductive StoreOp
| replace (c : Config)
| resolve (host : String)

/-- Runs a trace of store operations starting from an initial configuration,
collecting the (host, Target) observation of every resolve call. -/
def runStore : Config → List StoreOp → List (String × Target)
  | _, [] => []
  | _c, StoreOp.replace c2 :: rest => runStore c2 rest
  | c, StoreOp.resolve h :: rest => (h, c.route h) :: runStore c rest

/-- The configurations installed by the replace operations of a trace. -/
def installedConfigs (ops : List StoreOp) : List Config :=
  ops.filterMap (fun op => match op with
    | StoreOp.replace c => some c
    | StoreOp.resolve _ => none)

/-! ## WebSocket tunnel (src/drawbridge/websocket.rs) -/

/-- One value produced by polling `next()` on a message-oriented WebSocket
stream: either a message (modelled by its payload string) or a stream error.
A side's whole lifetime is the finite list of such items before the stream
ends. -/
inductive StreamItem
| msg (m : String)
| fail (e : String)
deriving DecidableEq

/-- True for message items, false for error items. -/
def StreamItem.isMsg : StreamItem → Bool
  | StreamItem.msg _ => true
  | StreamItem.fail _ => false

/-- True when every item of the stream is a message (no errors). -/
def allMsgs (l : List StreamItem) : Bool :=
  l.all StreamItem.isMsg

/-- The payloads of the message items of a stream, in order. -/
def msgsOf (l : List StreamItem) : List String :=
  l.filterMap (fun i => match i with
    | StreamItem.msg m => some m
    | StreamItem.fail _ => none)

/-- Result of the relay loop in serve_websocket: what was forwarded in each
direction and how the loop ended (Ok for the `else => break` exit, error when
a question mark operator aborted it). -/
structure RelayResult where
  toTarget : List String
  toClient : List String
  outcome : Except String Unit

/-- The `loop { tokio::select! { ... } }` of serve_websocket (src/drawbridge/
websocket.rs lines 57-69).  Each `Some(x) = stream.next()` arm fires when its
stream still has an item; a stream that has ended merely disables its arm, and
the `else => break` exit is reached only when both arms are disabled, i.e. when
both streams have ended.  An error item aborts the loop through the question
mark operator.  `sched` resolves the select nondeterminism when both sides are
ready: true picks the client arm, false the target arm (defaulting to the
client arm when exhausted). -/
def relay (client target : List StreamItem) (sched : List Bool) : RelayResult :=
  match client, target with
  | [], [] => ⟨[], [], Except.ok ()⟩
  | StreamItem.msg m :: cs, [] =>
    let r := relay cs [] sched
    ⟨m :: r.toTarget, r.toClient, r.outcome⟩
  | StreamItem.fail e :: _, [] => ⟨[], [], Except.error e⟩
  | [], StreamItem.msg m :: ts =>
    let r := relay [] ts sched
    ⟨r.toTarget, m :: r.toClient, r.outcome⟩
  | [], StreamItem.fail e :: _ => ⟨[], [], Except.error e⟩
  | c :: cs, t :: ts =>
    if sched.headD true then
      match c with
      | StreamItem.msg m =>
        let r := relay cs (t :: ts) sched.tail
        ⟨m :: r.toTarget, r.toClient, r.outcome⟩
      | StreamItem.fail e => ⟨[], [], Except.error e⟩
    else
      match t with
      | StreamItem.msg m =>
        let r := relay (c :: cs) ts sched.tail
        ⟨r.toTarget, m :: r.toClient, r.outcome⟩
      | StreamItem.fail e => ⟨[], [], Except.error e⟩
termination_by client.length + target.length
decreasing_by all_goals simp [List.length_cons]

/-- Rust str::trim_start_matches with the pattern '/': removes every leading
slash, as used on the request's path-and-query in serve_websocket. -/
def trimStartMatchesSlash : List Char → List Char
  | [] => []
  | c :: rest => if c = '/' then trimStartMatchesSlash rest else c :: rest

/-- Display form of an IpAddr, as Rust's Display impl renders it. -/
def IpAddr.display : IpAddr → String
  | IpAddr.v4 a b c d =>
    toString a ++ (".") ++ toString b ++ (".") ++ toString c ++ (".") ++ toString d
  | IpAddr.v6 segments => String.intercalate (":") (segments.map toString)

/-- Display form of a SocketAddr ("ip:port"), as interpolated by
`format!("ws://{addr}/{path}")`. -/
def SocketAddr.display (s : SocketAddr) : String :=
  s.ip.display ++ (":") ++ toString s.port

/-- The URL computation in serve_websocket (src/drawbridge/websocket.rs lines
40-47): "ws://{addr}/{path}" where path is the original request's
path-and-query with its leading slashes trimmed, or "" when absent.  Built
over `List Char` so character-level reasoning is direct. -/
def buildWsUrl (addr : SocketAddr) (pathAndQuery : Option (List Char)) : List Char :=
  ("ws://").toList ++ addr.display.toList ++ '/' :: trimStartMatchesSlash (pathAndQuery.getD [])

/-- The pieces of `http::request::Parts` that serve_websocket reads: the
original request's path-and-query and its headers. -/
structure WsParts where
  pathAndQuery : Option (List Char)
  headers : List (String × String)

/-- A client WebSocket handshake request: URL plus headers. -/
structure WsRequest where
  url : List Char
  headers : List (String × String)

/-- Models tungstenite's IntoClientRequest for a URL string: a handshake
request for that URL whose initial headers are the library-generated handshake
headers.  Their exact value lives outside this repository and is immaterial
here: serve_websocket overwrites the header map wholesale right after. -/
def into_client_request (url : List Char) : WsRequest :=
  ⟨url, [(("Connection"), ("Upgrade")), (("Upgrade"), ("websocket"))]⟩

/-- The upstream handshake request serve_websocket builds (src/drawbridge/
websocket.rs lines 51-53): into_client_request of the built URL, with the
header map then replaced by a clone of the original request's headers. -/
def upstreamRequest (parts : WsParts) (addr : SocketAddr) : WsRequest :=
  let target_request := into_client_request (buildWsUrl addr parts.pathAndQuery)
  { target_request with headers := parts.headers }

/-- Rust fn serve_websocket in src/drawbridge/websocket.rs: await the client
upgrade, validate the target (only Target::Socket is valid — anything else is
the error "Invalid target for websocket"), build the upstream request, connect,
then run the relay loop.  `upgradeAwait` models `websocket.await?` and
`connect` models `connect_async(target_request).await?`. -/
def serve_websocket (upgradeAwait : Except String Unit) (parts : WsParts)
    (target : Target) (connect : WsRequest → Except String Unit)
    (clientStream targetStream : List StreamItem) (sched : List Bool) :
    Except String RelayResult :=
  match upgradeAwait with
  | Except.error e => Except.error e
  | Except.ok _ =>
    match target with
    | Target.Socket addr =>
      match connect (upstreamRequest parts addr) with
      | Except.error e => Except.error e
      | Except.ok _ =>
        let r := relay clientStream targetStream sched
        match r.outcome with
        | Except.ok _ => Except.ok r
        | Except.error e => Except.error e
    | _ => Except.error (("Invalid target for websocket"))

/-- The 101 Switching Protocols response hyper_tungstenite::upgrade returns to
the client; its body is empty. -/
def switchingProtocols : Response :=
  ⟨101, ("")⟩

/-- The panic message Rust produces for `Result::unwrap` on an Err value. -/
def unwrapErrMsg (e : String) : String :=
  ("called `Result::unwrap()` on an `Err` value: ") ++ e

/-- Outcome of fn handle for one inbound request: None returned (the caller
falls through to plain HTTP forwarding), a panic from the unwrap on a failed
upgrade call, or Some(response) returned with the detached relay task spawned
(the task's eventual result is carried alongside the response). -/
inductive HandleOutcome
| notHandled
| panicked (msg : String)
| response (resp : Response) (task : Except String RelayResult)

/-- True exactly when handle returned Some(response) to the request path. -/
def HandleOutcome.returnsResponse : HandleOutcome → Bool
  | HandleOutcome.response _ _ => true
  | _ => false

/-- Rust fn handle in src/drawbridge/websocket.rs (lines 13-29): a non-upgrade
request yields None.  For an upgrade-flagged request the code runs
`hyper_tungstenite::upgrade(request, None).unwrap()`: upgrade is fallible — it
errors e.g. when Sec-WebSocket-Key is missing or Sec-WebSocket-Version is not
13, conditions is_upgrade_request does not check — and the unwrap turns such
an error into a panic.  Only on a successful upgrade does handle spawn
serve_websocket as a detached task and return Some(switching protocols
response).  `upgradeResult` models the outcome of the upgrade call. -/
def websocket_handle (isUpgradeRequest : Bool) (upgradeResult : Except String Unit)
    (parts : WsParts) (target : Target)
    (upgradeAwait : Except String Unit) (connect : WsRequest → Except String Unit)
    (clientStream targetStream : List StreamItem) (sched : List Bool) : HandleOutcome :=
  if isUpgradeRequest then
    match upgradeResult with
    | Except.error e => HandleOutcome.panicked (unwrapErrMsg e)
    | Except.ok _ =>
      HandleOutcome.response switchingProtocols
        (serve_websocket upgradeAwait parts target connect clientStream targetStream sched)
  else HandleOutcome.notHandled

/-! ## Substring helper (for stating what a response body does not contain) -/

/-- True when the first list is an initial segment of the second. -/
def leadsList : List Char → List Char → Bool
  | [], _ => true
  | _ :: _, [] => false
  | a :: as, b :: bs => a == b && leadsList as bs

/-- True when `needle` occurs contiguously anywhere inside `hay`. -/
def occursIn (needle hay : List Char) : Bool :=
  match hay with
  | [] => leadsList needle []
  | _ :: rest => leadsList needle hay || occursIn needle rest

/-! ## Concrete configurations used to instantiate the theorems -/

/-- A configuration with two services sharing the host "a": exercises the
duplicate-host first-match semantics. -/
def cfgDup : Config :=
  { file_path := none
    services :=
      [ ⟨("s0"), 1000, ("a"), none, none⟩
      , ⟨("s1"), 2000, ("a"), none, none⟩ ]
    incipit_host := some ("dash")
    addr := none
    port := none
    db_path := none }

/-- A configuration whose `addr` field is set to 127.0.0.1: exercises the
dependence of the backend socket address on the addr field. -/
def cfgAddr : Config :=
  { file_path := none
    services := [ ⟨("s"), 1000, ("a"), none, none⟩ ]
    incipit_host := none
    addr := some (IpAddr.v4 127 0 0 1)
    port := none
    db_path := none }

/-- An old configuration routing host "a" to port 1111. -/
def cfgStoreA : Config :=
  { file_path := none
    services := [ ⟨("s"), 1111, ("a"), none, none⟩ ]
    incipit_host := none
    addr := none
    port := none
    db_path := none }

/-- A new configuration routing host "a" to port 2222. -/
def cfgStoreB : Config :=
  { file_path := none
    services := [ ⟨("s"), 2222, ("a"), none, none⟩ ]
    incipit_host := none
    addr := none
    port := none
    db_path := none }

/-- A configuration whose on-disk path is unknown (file_path = None). -/
def cfgNoPath : Config :=
  { file_path := none
    services := []
    incipit_host := none
    addr := none
    port := none
    db_path := none }

/-! ## Helper lemmas -/

/-- The dashboard test in Config::route is true exactly when `incipit_host` is
`Some host`. -/
theorem dashboard_cond (c : Config) (host : String) :
    ((c.incipit_host.map (fun ih => ih == host)).getD false = true) ↔
      c.incipit_host = some host := by
  cases h : c.incipit_host with
  | none => simp
  | some ih => simp [beq_iff_eq]

/-- find? returns the element at position i whenever it satisfies the predicate
and no earlier element does: first-match semantics in list order. -/
theorem find?_first {α : Type} (p : α → Bool) (l : List α) :
    ∀ (i : Nat) (hi : i < l.length),
      p (l.get ⟨i, hi⟩) = true →
      (∀ (j : Nat) (hj : j < l.length), j < i → p (l.get ⟨j, hj⟩) = false) →
      l.find? p = some (l.get ⟨i, hi⟩) := by
  induction l with
  | nil => intro i hi; simp at hi
  | cons a as ih =>
    intro i hi hp hmin
    cases i with
    | zero =>
      simp only [List.get] at hp
      simp [List.find?, hp]
    | succ n =>
      have ha : p a = false := hmin 0 (by simp) (Nat.succ_pos n)
      have hrec := ih n (Nat.lt_of_succ_lt_succ hi)
        (by simpa using hp)
        (fun j hj hlt => by
          have := hmin (j + 1) (by simpa using Nat.succ_lt_succ hj)
            (Nat.succ_lt_succ hlt)
          simpa using this)
      simp only [List.get]
      simp [List.find?, ha, hrec]

/-- When neither stream contains an error item, the relay loop forwards every
client message to the target and every target message to the client, each in
arrival order, and exits gracefully through the else branch — which it reaches
only once both streams have ended. -/
theorem relay_forwards_all (client target : List StreamItem) (sched : List Bool)
    (hc : allMsgs client = true) (ht : allMsgs target = true) :
    relay client target sched = ⟨msgsOf client, msgsOf target, Except.ok ()⟩ := by
  induction client, target, sched using relay.induct with
  | case1 sched => simp [relay, msgsOf]
  | case2 sched m cs ih =>
    have hc2 : allMsgs cs = true := by
      simpa [allMsgs, StreamItem.isMsg] using hc
    rw [relay.eq_2, ih hc2 ht]
    simp [msgsOf]
  | case3 sched e tail =>
    simp [allMsgs, StreamItem.isMsg] at hc
  | case4 sched m ts ih =>
    have ht2 : allMsgs ts = true := by
      simpa [allMsgs, StreamItem.isMsg] using ht
    rw [relay.eq_4, ih hc ht2]
    simp [msgsOf]
  | case5 sched e tail =>
    simp [allMsgs, StreamItem.isMsg] at ht
  | case6 sched cs t ts hhead m ih =>
    have hc2 : allMsgs cs = true := by
      simpa [allMsgs, StreamItem.isMsg] using hc
    cases t with
    | msg m1 =>
      rw [relay.eq_6, if_pos hhead]
      simp only [ih hc2 ht]
      simp [msgsOf]
    | fail e =>
      simp [allMsgs, StreamItem.isMsg] at ht
  | case7 sched cs t ts hhead e =>
    simp [allMsgs, StreamItem.isMsg] at hc
  | case8 sched c cs ts hhead m ih =>
    have ht2 : allMsgs ts = true := by
      simpa [allMsgs, StreamItem.isMsg] using ht
    cases c with
    | msg m1 =>
      rw [relay.eq_6, if_neg hhead]
      simp only [ih hc ht2]
      simp [msgsOf]
    | fail e =>
      simp [allMsgs, StreamItem.isMsg] at hc
  | case9 sched c cs ts hhead e =>
    simp [allMsgs, StreamItem.isMsg] at ht

/-- A graceful exit of the relay loop means no error item was encountered on
either stream: errors always abort the loop with an error outcome. -/
theorem relay_ok_means_no_errors (client target : List StreamItem) (sched : List Bool)
    (h : (relay client target sched).outcome = Except.ok ()) :
    allMsgs client = true ∧ allMsgs target = true := by
  induction client, target, sched using relay.induct with
  | case1 sched => simp [allMsgs]
  | case2 sched m cs ih =>
    rw [relay.eq_2] at h
    simp only at h
    obtain ⟨h1, h2⟩ := ih h
    simp_all [allMsgs, StreamItem.isMsg]
  | case3 sched e tail =>
    rw [relay.eq_3] at h
    simp at h
  | case4 sched m ts ih =>
    rw [relay.eq_4] at h
    simp only at h
    obtain ⟨h1, h2⟩ := ih h
    simp_all [allMsgs, StreamItem.isMsg]
  | case5 sched e tail =>
    rw [relay.eq_5] at h
    simp at h
  | case6 sched cs t ts hhead m ih =>
    cases t with
    | msg m1 =>
      rw [relay.eq_6, if_pos hhead] at h
      simp only at h
      obtain ⟨h1, h2⟩ := ih h
      simp_all [allMsgs, StreamItem.isMsg]
    | fail e =>
      rw [relay.eq_7, if_pos hhead] at h
      simp only at h
      obtain ⟨h1, h2⟩ := ih h
      simp [allMsgs, StreamItem.isMsg] at h2
  | case7 sched cs t ts hhead e =>
    cases t with
    | msg m1 =>
      rw [relay.eq_8, if_pos hhead] at h
      simp at h
    | fail e1 =>
      rw [relay.eq_9, if_pos hhead] at h
      simp at h
  | case8 sched c cs ts hhead m ih =>
    cases c with
    | msg m1 =>
      rw [relay.eq_6, if_neg hhead] at h
      simp only at h
      obtain ⟨h1, h2⟩ := ih h
      simp_all [allMsgs, StreamItem.isMsg]
    | fail e =>
      rw [relay.eq_8, if_neg hhead] at h
      simp only at h
      obtain ⟨h1, h2⟩ := ih h
      simp [allMsgs, StreamItem.isMsg] at h1
  | case9 sched c cs ts hhead e =>
    cases c with
    | msg m1 =>
      rw [relay.eq_7, if_neg hhead] at h
      simp at h
    | fail e1 =>
      rw [relay.eq_9, if_neg hhead] at h
      simp at h

/-- Prepending a replace operation prepends the installed configuration. -/
theorem installedConfigs_replace (c2 : Config) (rest : List StoreOp) :
    installedConfigs (StoreOp.replace c2 :: rest) = c2 :: installedConfigs rest := by
  simp [installedConfigs]

/-- Prepending a resolve operation installs nothing. -/
theorem installedConfigs_resolve (h : String) (rest : List StoreOp) :
    installedConfigs (StoreOp.resolve h :: rest) = installedConfigs rest := by
  simp [installedConfigs]

/-! ## Claim theorems -/

/-- C1: for every Configuration and host header value, Config::route follows
exactly the specified algorithm under exact string comparison: the dashboard
host wins first; otherwise the first service entry in list order (duplicates
included) whose host equals the header yields the Backend target; otherwise
the result is Unknown. -/
theorem route_follows_spec_algorithm (c : Config) (host : String) :
    (c.route host = Target.Incipit ↔ c.incipit_host = some host) ∧
    (c.route host = Target.Unknown ↔
      c.incipit_host ≠ some host ∧ ∀ s ∈ c.services, s.host ≠ host) ∧
    (∀ (i : Nat) (hi : i < c.services.length),
      c.incipit_host ≠ some host →
      (c.services.get ⟨i, hi⟩).host = host →
      (∀ (j : Nat) (hj : j < c.services.length), j < i →
        (c.services.get ⟨j, hj⟩).host ≠ host) →
      c.route host = Target.Socket ⟨c.addrOrDefault, (c.services.get ⟨i, hi⟩).port⟩) := by
  by_cases hd : c.incipit_host = some host
  · have hcond : (c.incipit_host.map (fun ih => ih == host)).getD false = true :=
      (dashboard_cond c host).mpr hd
    refine ⟨?_, ?_, ?_⟩
    · simp [Config.route, hcond, hd]
    · simp [Config.route, hcond, hd]
    · intro i hi hnd
      exact absurd hd hnd
  · have hcond : (c.incipit_host.map (fun ih => ih == host)).getD false = false := by
      cases hb : (c.incipit_host.map (fun ih => ih == host)).getD false with
      | false => rfl
      | true => exact absurd ((dashboard_cond c host).mp hb) hd
    cases hf : c.services.find? (fun s => s.host == host) with
    | none =>
      have hall : ∀ s ∈ c.services, s.host ≠ host := by
        intro s hs
        have := List.find?_eq_none.mp hf s hs
        simpa [beq_iff_eq] using this
      refine ⟨?_, ?_, ?_⟩
      · simp [Config.route, hcond, hf, hd]
      · constructor
        · intro _
          exact ⟨hd, hall⟩
        · intro _
          simp [Config.route, hcond, hf]
      · intro i hi _hnd hhost _hmin
        exact absurd hhost (hall _ (List.get_mem c.services _ _))
    | some s =>
      have hmem : s ∈ c.services := List.mem_of_find?_eq_some hf
      have hps : s.host = host := by
        have := List.find?_some hf
        simpa [beq_iff_eq] using this
      refine ⟨?_, ?_, ?_⟩
      · simp [Config.route, hcond, hf, hd]
      · constructor
        · intro h
          simp [Config.route, hcond, hf] at h
        · rintro ⟨-, hall⟩
          exact absurd hps (hall s hmem)
      · intro i hi _hnd hhost hmin
        have hfirst := find?_first (fun x => x.host == host) c.services i hi
          (by simpa [beq_iff_eq] using hhost)
          (fun j hj hlt => by simpa [beq_iff_eq] using hmin j hj hlt)
        rw [hf] at hfirst
        have hsg : s = c.services.get ⟨i, hi⟩ := Option.some.inj hfirst
        simp [Config.route, hcond, hf, hsg]

/-- C1 witness: the algorithm instantiated on a configuration with a duplicate
host value: the first match (port 1000) wins, the dashboard host maps to
Incipit, an unmatched host to Unknown. -/
theorem route_follows_spec_algorithm_witness :
    cfgDup.route ("a") = Target.Socket ⟨cfgDup.addrOrDefault, 1000⟩ ∧
    cfgDup.route ("dash") = Target.Incipit ∧
    cfgDup.route ("nope") = Target.Unknown := by
  refine ⟨?_, ?_, ?_⟩
  · exact (route_follows_spec_algorithm cfgDup ("a")).2.2 0 (by decide) (by decide)
      (by decide) (fun j hj hlt => absurd hlt (Nat.not_lt_zero j))
  · exact (route_follows_spec_algorithm cfgDup ("dash")).1.mpr (by decide)
  · exact (route_follows_spec_algorithm cfgDup ("nope")).2.1.mpr ⟨by decide, by decide⟩

/-- C5 counterexample: with `addr = Some 127.0.0.1` in the configuration, the
Backend target for a matched service carries 127.0.0.1, not the fixed wildcard
address: the backend socket address does depend on another configuration
field. -/
theorem backend_addr_depends_on_config_addr :
    cfgAddr.route ("a") = Target.Socket ⟨IpAddr.v4 127 0 0 1, 1000⟩ ∧
    cfgAddr.route ("a") ≠ Target.Socket ⟨wildcardV4, 1000⟩ := by
  decide

/-- C5 amended: the Backend socket address combines the configuration's `addr`
field — which is the wildcard 0.0.0.0 only when that field is unset — with the
matched entry's port. -/
theorem backend_socket_uses_configured_addr (c : Config) (host : String)
    (s : ServiceConfig)
    (hd : c.incipit_host ≠ some host)
    (hf : c.services.find? (fun x => x.host == host) = some s) :
    c.route host = Target.Socket ⟨c.addr.getD wildcardV4, s.port⟩ := by
  have hcond : (c.incipit_host.map (fun ih => ih == host)).getD false = false := by
    cases hb : (c.incipit_host.map (fun ih => ih == host)).getD false with
    | false => rfl
    | true => exact absurd ((dashboard_cond c host).mp hb) hd
  simp [Config.route, hcond, hf, Config.addrOrDefault]

/-- C5 amended witness: the concrete configuration with addr 127.0.0.1. -/
theorem backend_socket_uses_configured_addr_witness :
    cfgAddr.route ("a") = Target.Socket ⟨IpAddr.v4 127 0 0 1, 1000⟩ :=
  backend_socket_uses_configured_addr cfgAddr ("a")
    ⟨("s"), 1000, ("a"), none, none⟩ (by decide) (by decide)

/-- C2 counterexample: a request whose host resolves to no backend is answered
with status 500 and the fixed body "500 - Incipit error", not the claimed 404
— though indeed no upstream connection is attempted. -/
theorem unknown_host_yields_500_not_404 :
    (middleware (route_traffic (fun _ => none) ("unknown.example.com")
      (NetOutcome.upstream ⟨200, ("ok")⟩))).response.status = 500 ∧
    (middleware (route_traffic (fun _ => none) ("unknown.example.com")
      (NetOutcome.upstream ⟨200, ("ok")⟩))).response.status ≠ 404 ∧
    (route_traffic (fun _ => none) ("unknown.example.com")
      (NetOutcome.upstream ⟨200, ("ok")⟩)).connectionsAttempted = 0 := by
  refine ⟨rfl, by decide, rfl⟩

/-- C2 amended: an unknown host is a first-class outcome, not an exception:
route_traffic returns the error "Unknown host {host}" without attempting any
upstream connection, and the middleware of main.rs turns the error into a 500
response with the fixed diagnostic body "500 - Incipit error" (a 500, not a
404). -/
theorem unknown_host_error_to_500_fixed_body
    (mapping : String → Option SocketAddr) (host : String) (net : NetOutcome)
    (h : mapping host = none) :
    route_traffic mapping host net =
      ⟨Except.error (("Unknown host ") ++ host), 0⟩ ∧
    (middleware (route_traffic mapping host net)).response =
      ⟨500, ("500 - Incipit error")⟩ := by
  simp [route_traffic, h, middleware]

/-- C2 amended witness: a concrete empty mapping. -/
theorem unknown_host_error_to_500_fixed_body_witness :
    route_traffic (fun _ => none) ("nope.example.com")
      (NetOutcome.upstream ⟨200, ("ok")⟩) =
      ⟨Except.error (("Unknown host ") ++ ("nope.example.com")), 0⟩ ∧
    (middleware (route_traffic (fun _ => none) ("nope.example.com")
      (NetOutcome.upstream ⟨200, ("ok")⟩))).response =
      ⟨500, ("500 - Incipit error")⟩ :=
  unknown_host_error_to_500_fixed_body (fun _ => none) ("nope.example.com")
    (NetOutcome.upstream ⟨200, ("ok")⟩) rfl

/-- C7 counterexample: when the upstream connect fails with "connection
refused", the client receives the 500 response with the fixed body
"500 - Incipit error"; the error detail does not occur in that body. -/
theorem forward_error_body_is_fixed :
    (middleware (route_traffic (fun _ => some ⟨wildcardV4, 1234⟩)
      ("svc.example.com") (NetOutcome.connectError ("connection refused")))).response =
      ⟨500, ("500 - Incipit error")⟩ ∧
    occursIn (("connection refused").toList)
      ((middleware (route_traffic (fun _ => some ⟨wildcardV4, 1234⟩)
        ("svc.example.com")
        (NetOutcome.connectError ("connection refused")))).response.body.toList) =
      false := by
  refine ⟨rfl, by decide⟩

/-- C7 amended: a connect or handshake failure before any response bytes
yields a 500 response whose body is the fixed string "500 - Incipit error";
the error detail is logged by the middleware, not included in the body. -/
theorem forward_failure_yields_500_fixed_body_logged
    (mapping : String → Option SocketAddr) (host : String) (addr : SocketAddr)
    (e : String) (h : mapping host = some addr) :
    middleware (route_traffic mapping host (NetOutcome.connectError e)) =
      ⟨⟨500, ("500 - Incipit error")⟩, [e]⟩ ∧
    middleware (route_traffic mapping host (NetOutcome.handshakeError e)) =
      ⟨⟨500, ("500 - Incipit error")⟩, [e]⟩ := by
  simp [route_traffic, h, forward, middleware]

/-- C7 amended witness: a concrete mapping and error. -/
theorem forward_failure_yields_500_fixed_body_logged_witness :
    middleware (route_traffic (fun _ => some ⟨wildcardV4, 1234⟩)
      ("svc.example.com") (NetOutcome.connectError ("boom"))) =
      ⟨⟨500, ("500 - Incipit error")⟩, [("boom")]⟩ ∧
    middleware (route_traffic (fun _ => some ⟨wildcardV4, 1234⟩)
      ("svc.example.com") (NetOutcome.handshakeError ("boom"))) =
      ⟨⟨500, ("500 - Incipit error")⟩, [("boom")]⟩ :=
  forward_failure_yields_500_fixed_body_logged (fun _ => some ⟨wildcardV4, 1234⟩)
    ("svc.example.com") ⟨wildcardV4, 1234⟩ ("boom") rfl

/-- C3: evaluating the watcher loop at the failing input — a change event on
the watched path whose reload fails — shows the previously installed
Configuration is retained unchanged and the store never lacks a valid value,
but nothing is logged about the failure and the loop stops (`alive = false`):
the question mark operator silently ends the watcher thread instead of logging
and continuing, contradicting the claim's "the failure is logged". -/
theorem reload_failure_silent_and_stops_watcher (path : String) (store : Config)
    (e : String) :
    watchIteration path store (NotifyEvent.ok [path]) (Except.error e) =
      ⟨store, [], false⟩ := by
  simp [watchIteration]

/-- C6: evaluating the code at the failing input — a Configuration whose
on-disk path is unknown.  fn watch indeed disables watching gracefully
(warn log, Ok(None)), but fn run then unwraps the absent watcher and panics,
so the proxy does not keep running in the degraded mode the claim (and fn
watch's own design) describes. -/
theorem run_panics_when_config_path_unknown (c : Config)
    (h : c.file_path = none) :
    watchSetup c = ⟨none, [("Not watching config")]⟩ ∧
    runWatcherPhase c = RunOutcome.panicked unwrapNoneMsg := by
  simp [runWatcherPhase, watchSetup, h]

/-- C6 witness: the concrete pathless configuration. -/
theorem run_panics_when_config_path_unknown_witness :
    watchSetup cfgNoPath = ⟨none, [("Not watching config")]⟩ ∧
    runWatcherPhase cfgNoPath = RunOutcome.panicked unwrapNoneMsg :=
  run_panics_when_config_path_unknown cfgNoPath rfl

/-- C4: in every interleaving of wholesale replacements and resolve calls on
the shared store, each resolve call's observation equals Config::route of one
complete Configuration — the initial one or one installed by a replace — never
of a partially-updated mix of two configurations. -/
theorem resolve_observes_whole_snapshot (init : Config) (ops : List StoreOp)
    (obs : String × Target) (h : obs ∈ runStore init ops) :
    ∃ c, (c = init ∨ c ∈ installedConfigs ops) ∧ obs.2 = c.route obs.1 := by
  induction ops generalizing init with
  | nil => simp [runStore] at h
  | cons op rest ih =>
    cases op with
    | replace c2 =>
      have h2 : obs ∈ runStore c2 rest := by simpa [runStore] using h
      obtain ⟨c, hc, hobs⟩ := ih c2 h2
      refine ⟨c, Or.inr ?_, hobs⟩
      rw [installedConfigs_replace]
      rcases hc with rfl | hmem
      · exact List.mem_cons_self c (installedConfigs rest)
      · exact List.mem_cons_of_mem c2 hmem
    | resolve hst =>
      have h2 : obs = (hst, init.route hst) ∨ obs ∈ runStore init rest := by
        simpa [runStore] using h
      rcases h2 with heq | hmem
      · exact ⟨init, Or.inl rfl, by rw [heq]⟩
      · obtain ⟨c, hc, hobs⟩ := ih init hmem
        refine ⟨c, ?_, hobs⟩
        rw [installedConfigs_resolve]
        exact hc

/-- C4 witness: a trace that replaces the old configuration by the new one and
then resolves: the observation is the route of a whole installed
configuration. -/
theorem resolve_observes_whole_snapshot_witness :
    ∃ c, (c = cfgStoreA ∨
        c ∈ installedConfigs [StoreOp.replace cfgStoreB, StoreOp.resolve ("a")]) ∧
      ((("a"), cfgStoreB.route ("a"))).2 = c.route ((("a"), cfgStoreB.route ("a"))).1 :=
  resolve_observes_whole_snapshot cfgStoreA
    [StoreOp.replace cfgStoreB, StoreOp.resolve ("a")]
    ((("a"), cfgStoreB.route ("a"))) (by simp [runStore])

/-- C8 counterexample: with the client stream already ended and one message
still pending from the target, the loop does not terminate at the client's end
of stream: the client's `Some(..)` select arm is merely disabled, the target's
message is still forwarded, and only then does the `else => break` fire.  This
refutes "terminates as soon as either side's message stream ends". -/
theorem relay_continues_after_client_stream_end :
    relay [] [StreamItem.msg ("m")] [] = ⟨[], [("m")], Except.ok ()⟩ ∧
    (relay [] [StreamItem.msg ("m")] []).toClient ≠ [] := by
  have h : relay [] [StreamItem.msg ("m")] [] = ⟨[], [("m")], Except.ok ()⟩ := by
    rw [relay.eq_4, relay.eq_1]
  exact ⟨h, by rw [h]; simp⟩

/-- C8 amended: the relay loop terminates as soon as either side errors (the
error aborts the loop at once) or once BOTH sides' message streams have ended;
a single side ending only disables that select arm.  When no errors occur,
every message of each side is forwarded verbatim, in arrival order, to the
other side, and the loop exits gracefully; on any exit both connections are
dropped. -/
theorem relay_terminates_on_error_or_both_ended (client target : List StreamItem)
    (sched : List Bool) :
    ((relay client target sched).outcome = Except.ok () ↔
      allMsgs client = true ∧ allMsgs target = true) ∧
    (allMsgs client = true → allMsgs target = true →
      relay client target sched = ⟨msgsOf client, msgsOf target, Except.ok ()⟩) := by
  refine ⟨⟨relay_ok_means_no_errors client target sched, ?_⟩,
    relay_forwards_all client target sched⟩
  rintro ⟨hc, ht⟩
  rw [relay_forwards_all client target sched hc ht]

/-- C8 amended witness: one message each way, forwarded verbatim, graceful
exit. -/
theorem relay_terminates_on_error_or_both_ended_witness :
    relay [StreamItem.msg ("x")] [StreamItem.msg ("y")] [] =
      ⟨[("x")], [("y")], Except.ok ()⟩ :=
  (relay_terminates_on_error_or_both_ended [StreamItem.msg ("x")]
    [StreamItem.msg ("y")] []).2 (by decide) (by decide)

/-- C9 counterexample: for a request whose path-and-query is "//x" the
upstream URL is "ws://0.0.0.0:1000/x": trim_start_matches('/') strips every
leading slash and the format string re-adds exactly one, so the original path
is not preserved verbatim. -/
theorem ws_url_collapses_double_slash :
    buildWsUrl ⟨IpAddr.v4 0 0 0 0, 1000⟩ (some (("//x").toList)) =
      ("ws://0.0.0.0:1000/x").toList ∧
    buildWsUrl ⟨IpAddr.v4 0 0 0 0, 1000⟩ (some (("//x").toList)) ≠
      ("ws://").toList ++ (SocketAddr.display ⟨IpAddr.v4 0 0 0 0, 1000⟩).toList ++
        ("//x").toList := by
  decide

/-- C9 amended: the upstream WebSocket URL is "ws://addr/" followed by the
original request's path-and-query with its leading slashes stripped — so path
and query are preserved verbatim exactly when the path begins with a single
slash (the normal origin-form request) — and the original request's headers
replace the handshake request's headers wholesale. -/
theorem ws_upstream_request_url_and_headers (parts : WsParts) (addr : SocketAddr)
    (rest : List Char)
    (hpq : parts.pathAndQuery = some ('/' :: rest))
    (hrest : rest.head? ≠ some '/') :
    (upstreamRequest parts addr).url =
      ("ws://").toList ++ addr.display.toList ++ '/' :: rest ∧
    (upstreamRequest parts addr).headers = parts.headers := by
  constructor
  · show buildWsUrl addr parts.pathAndQuery = _
    rw [hpq]
    have htrim : trimStartMatchesSlash ('/' :: rest) = rest := by
      cases rest with
      | nil => simp [trimStartMatchesSlash]
      | cons c cs =>
        have hcne : ¬(c = '/') := fun hcc => hrest (by simp [hcc])
        simp [trimStartMatchesSlash, hcne]
    simp [buildWsUrl, htrim]
  · rfl

/-- C9 amended witness: a normal single-slash path with a query, and one
original header, carried onto the upstream handshake request. -/
theorem ws_upstream_request_url_and_headers_witness :
    (upstreamRequest ⟨some (("/chat?x=1").toList), [(("Cookie"), ("a=1"))]⟩
        ⟨IpAddr.v4 0 0 0 0, 4455⟩).url =
      ("ws://").toList ++ (SocketAddr.display ⟨IpAddr.v4 0 0 0 0, 4455⟩).toList ++
        '/' :: (("chat?x=1").toList) ∧
    (upstreamRequest ⟨some (("/chat?x=1").toList), [(("Cookie"), ("a=1"))]⟩
        ⟨IpAddr.v4 0 0 0 0, 4455⟩).headers = [(("Cookie"), ("a=1"))] :=
  ws_upstream_request_url_and_headers
    ⟨some (("/chat?x=1").toList), [(("Cookie"), ("a=1"))]⟩
    ⟨IpAddr.v4 0 0 0 0, 4455⟩ (("chat?x=1").toList) (by decide) (by decide)

/-- C10 counterexample: a request that satisfies the upgrade-request criteria
(Connection/Upgrade headers, so is_upgrade_request passes) but whose upgrade
call fails — e.g. the Sec-WebSocket-Key header is missing — makes handle panic
on the unwrap instead of returning Some(switching-protocols), even for a valid
Backend target: the claim's "every inbound request that satisfies the
upgrade-request criteria ... returns Some" is false at this input. -/
theorem upgrade_flagged_request_without_key_panics :
    websocket_handle true (Except.error ("MissingSecWebSocketKey")) ⟨none, []⟩
      (Target.Socket ⟨wildcardV4, 4455⟩) (Except.ok ()) (fun _ => Except.ok ())
      [] [] [] =
      HandleOutcome.panicked (unwrapErrMsg ("MissingSecWebSocketKey")) ∧
    (websocket_handle true (Except.error ("MissingSecWebSocketKey")) ⟨none, []⟩
      (Target.Socket ⟨wildcardV4, 4455⟩) (Except.ok ()) (fun _ => Except.ok ())
      [] [] []).returnsResponse = false := by
  exact ⟨rfl, rfl⟩

/-- C10 amended: for every upgrade-flagged request whose upgrade call succeeds,
the handler returns Some(101 Switching Protocols) regardless of the Target —
including Incipit and Unknown — with serve_websocket spawned as the detached
task, whose "Invalid target for websocket" error arises only after the
response has been handed back; an upgrade-flagged request whose upgrade call
fails makes the handler panic on the unwrap; a non-upgrade request yields
None. -/
theorem websocket_handle_valid_upgrade_regardless_of_target
    (parts : WsParts) (target : Target) (upgradeResult : Except String Unit)
    (upgradeAwait : Except String Unit) (connect : WsRequest → Except String Unit)
    (clientStream targetStream : List StreamItem) (sched : List Bool) (e : String) :
    websocket_handle true (Except.ok ()) parts target upgradeAwait connect
      clientStream targetStream sched =
      HandleOutcome.response switchingProtocols
        (serve_websocket upgradeAwait parts target connect
          clientStream targetStream sched) ∧
    websocket_handle true (Except.error e) parts target upgradeAwait connect
      clientStream targetStream sched =
      HandleOutcome.panicked (unwrapErrMsg e) ∧
    websocket_handle false upgradeResult parts target upgradeAwait connect
      clientStream targetStream sched = HandleOutcome.notHandled ∧
    ((target = Target.Incipit ∨ target = Target.Unknown) →
      serve_websocket (Except.ok ()) parts target connect
        clientStream targetStream sched =
        Except.error (("Invalid target for websocket"))) := by
  refine ⟨by simp [websocket_handle], by simp [websocket_handle],
    by simp [websocket_handle], ?_⟩
  rintro (rfl | rfl) <;> simp [serve_websocket]

/-- C10 amended witness: a well-formed upgrade request resolved to Unknown
still gets the 101 response; the detached task then fails with the
invalid-target error. -/
theorem websocket_handle_valid_upgrade_regardless_of_target_witness :
    websocket_handle true (Except.ok ()) ⟨none, []⟩ Target.Unknown (Except.ok ())
      (fun _ => Except.ok ()) [] [] [] =
      HandleOutcome.response switchingProtocols
        (serve_websocket (Except.ok ()) ⟨none, []⟩ Target.Unknown
          (fun _ => Except.ok ()) [] [] []) ∧
    serve_websocket (Except.ok ()) ⟨none, []⟩ Target.Unknown
      (fun _ => Except.ok ()) [] [] [] =
      Except.error (("Invalid target for websocket")) :=
  ⟨(websocket_handle_valid_upgrade_regardless_of_target ⟨none, []⟩ Target.Unknown
      (Except.ok ()) (Except.ok ()) (fun _ => Except.ok ()) [] [] [] ("x")).1,
    (websocket_handle_valid_upgrade_regardless_of_target ⟨none, []⟩ Target.Unknown
      (Except.ok ()) (Except.ok ()) (fun _ => Except.ok ()) [] [] [] ("x")).2.2.2
      (Or.inr rfl)⟩

end Incipit
